import Mathlib

/-!
Verification of the aipod pipeline core against its specification.

The Python sources are shallowly embedded:
* `app/services/audio.py` — audio segments are modelled as lists of rational
  samples, one sample per millisecond (pydub measures lengths in ms; gain,
  overlay, slicing and crossfades act per sample).  Stereo up-conversion and
  resampling preserve the millisecond sample count, so `ensureStereo` and
  `setFrameRate` are the identity on this representation; pydub's dB-domain
  crossfade ramp is modelled by a linear amplitude ramp of the same length.
* `app/services/fingerprint.py` — embeddings are lists of reals.
* `app/services/claude.py` (`generate_report`) — the report quantities.
* `app/pipeline/tasks.py` / `worker.py` — the stage state machine, with the
  job row as an explicit record, provider calls supplied by an environment,
  and Python exceptions as an error monad.
-/

namespace Aipod

/-- An audio segment: one rational sample per millisecond (pydub's length
unit).  `len(seg)` in pydub is `List.length` here. -/
abbrev AudioSeg := List ℚ

/-- `ensure_stereo` (audio.py line 9): duplicates a mono channel.  The frame
count (hence the millisecond length and per-frame content up to channel
duplication) is unchanged, so on this representation it is the identity. -/
def ensureStereo (a : AudioSeg) : AudioSeg := a

/-- `set_frame_rate` resamples audio keeping its duration; at millisecond
granularity it is the identity. -/
def setFrameRate (a : AudioSeg) : AudioSeg := a

/-- `AudioSegment.silent(duration=d)`. -/
def silent (d : ℕ) : AudioSeg := List.replicate d 0

/-- `seg + gain_db` / `apply_gain`: amplitude scaling.  The dB→amplitude
conversion happens inside pydub; the model takes the amplitude factor. -/
def gainBy (g : ℚ) (a : AudioSeg) : AudioSeg := a.map (· * g)

/-- `a.overlay(b)`: adds `b` onto `a`; the result keeps `a`'s length. -/
def overlay (a b : AudioSeg) : AudioSeg :=
  List.zipWith (· + ·) a b ++ a.drop b.length

/-- `seg * n`: pydub repetition. -/
def repeatSeg (a : AudioSeg) (n : ℕ) : AudioSeg := (List.replicate n a).flatten

/-- Linear fade-in ramp over the whole segment (models pydub's crossfade
fade-in; same length, endpoint amplitudes 1/n .. 1). -/
def fadeInLin (a : AudioSeg) : AudioSeg :=
  a.enum.map (fun p => p.2 * (((p.1 : ℚ) + 1) / (a.length : ℚ)))

/-- Linear fade-out ramp over the whole segment. -/
def fadeOutLin (a : AudioSeg) : AudioSeg :=
  a.enum.map (fun p => p.2 * (((a.length : ℚ) - (p.1 : ℚ)) / (a.length : ℚ)))

/-- `a.append(b, crossfade=c)`: keep `a` up to its last `c` ms, overlay the
faded tail of `a` with the faded head of `b`, then the rest of `b`.
Used only when `c < a.length` and `c < b.length`, as in the source. -/
def appendCrossfade (a b : AudioSeg) (c : ℕ) : AudioSeg :=
  a.take (a.length - c) ++
    overlay (fadeOutLin (a.drop (a.length - c))) (fadeInLin (b.take c)) ++
    b.drop c

/-- A transcript segment (fixed record shape per the data model):
`start_time`/`end_time` are stored in milliseconds (the source stores seconds
and multiplies by 1000 where milliseconds are needed); `detected_language`
holds the detected language name. -/
structure Segment where
  speaker : String := "Speaker"
  text : String := ""
  start_ms : ℕ := 0
  end_ms : ℕ := 0
  detected_language : Option String := none
  translated_text : Option String := none
deriving DecidableEq, Repr

instance : Inhabited Segment := ⟨{}⟩

/-- `stitch_segments` (audio.py lines 90-116): concatenate segment audio with
a crossfade when both sides exceed `crossfade_ms`; raises
`ValueError("No segment files to stitch")` on an empty list. -/
def stitch_segments (files : List AudioSeg) (crossfade_ms : ℕ := 100) :
    Except String AudioSeg :=
  match files with
  | [] => .error "No segment files to stitch"
  | f :: rest =>
      .ok (rest.foldl
        (fun combined seg =>
          let seg := setFrameRate (ensureStereo seg)
          if 0 < crossfade_ms ∧ crossfade_ms < combined.length ∧
              crossfade_ms < seg.length then
            appendCrossfade combined seg crossfade_ms
          else combined ++ seg)
        (setFrameRate (ensureStereo f)))

/-- The first `middle_bg_quiet` assignment of `smart_mix` (audio.py lines
185-188): attenuate the middle section when it is non-empty. -/
def middleQuiet (bg_volume : ℚ) (middle_bg : AudioSeg) : AudioSeg :=
  if 0 < middle_bg.length then gainBy bg_volume middle_bg else []

/-- The middle-duration reconciliation of `smart_mix` (audio.py lines
190-198): loop-and-truncate when the TTS is longer than the original middle,
truncate when shorter.  `tts_len` and `middle_len` are the lengths read by
the source's conditions. -/
def middleReconciled (tts_len middle_len : ℕ) (middle_bg_quiet : AudioSeg) :
    AudioSeg :=
  if 0 < tts_len ∧ 0 < middle_len then
    if middle_len < tts_len then
      (repeatSeg middle_bg_quiet (tts_len / middle_len + 1)).take tts_len
    else if tts_len < middle_len then
      middle_bg_quiet.take tts_len
    else middle_bg_quiet
  else middle_bg_quiet

/-- The overlay step of `smart_mix` (audio.py lines 200-214): pad whichever
of the TTS and the adjusted middle background is shorter, then overlay. -/
def mixedMiddle (tts middle_bg_quiet : AudioSeg) : AudioSeg :=
  if 0 < middle_bg_quiet.length ∧ 0 < tts.length then
    let mbq_len := middle_bg_quiet.length
    let mbq :=
      if mbq_len < tts.length then middle_bg_quiet ++ silent (tts.length - mbq_len)
      else middle_bg_quiet
    let tts2 :=
      if tts.length < mbq_len then tts ++ silent (mbq_len - tts.length) else tts
    overlay tts2 mbq
  else tts

/-- The intro/middle concatenation of `smart_mix` (audio.py lines 218-228):
crossfade when both sections exceed the crossfade length, else hard concat;
degenerate sections pass through. -/
def introConcat (intro_bg mixed_middle : AudioSeg) (crossfade_ms : ℕ) : AudioSeg :=
  if 0 < intro_bg.length then
    if 0 < mixed_middle.length then
      if crossfade_ms < intro_bg.length ∧ crossfade_ms < mixed_middle.length then
        appendCrossfade intro_bg mixed_middle crossfade_ms
      else intro_bg ++ mixed_middle
    else intro_bg
  else mixed_middle

/-- The outro concatenation of `smart_mix` (audio.py lines 230-234). -/
def outroConcat (final outro_bg : AudioSeg) (crossfade_ms : ℕ) : AudioSeg :=
  if 0 < outro_bg.length then
    if crossfade_ms < final.length ∧ crossfade_ms < outro_bg.length then
      appendCrossfade final outro_bg crossfade_ms
    else final ++ outro_bg
  else final

/-- `smart_mix` (audio.py lines 126-240), translated statement by statement;
the source's local-variable pipeline is factored into the named helper steps
above.  `bg_volume` is the amplitude factor corresponding to
`bg_volume_db`. -/
def smart_mix (tts0 background0 : AudioSeg) (transcript_segments : List Segment)
    (bg_volume : ℚ) (crossfade_ms : ℕ := 500) : AudioSeg :=
  let tts := ensureStereo tts0
  let background := setFrameRate (ensureStereo background0)
  let bg_len := background.length
  if bg_len = 0 then
    tts
  else
    let first_speech_ms :=
      if transcript_segments.isEmpty then 0
      else (transcript_segments.head?.getD default).start_ms
    let last_speech_ms :=
      if transcript_segments.isEmpty then bg_len
      else (transcript_segments.getLast?.getD default).end_ms
    let first := min first_speech_ms bg_len
    let last := min last_speech_ms bg_len
    let intro_bg := background.take first
    let middle_bg := (background.drop first).take (last - first)
    let outro_bg := background.drop last
    let middle_bg_quiet := middleQuiet bg_volume middle_bg
    let middle_bg_quiet := middleReconciled tts.length middle_bg.length middle_bg_quiet
    let mixed_middle := mixedMiddle tts middle_bg_quiet
    let final := introConcat intro_bg mixed_middle crossfade_ms
    outroConcat final outro_bg crossfade_ms

theorem length_silent (d : ℕ) : (silent d).length = d := by
  simp [silent]

theorem length_gainBy (g : ℚ) (a : AudioSeg) : (gainBy g a).length = a.length := by
  simp [gainBy]

theorem length_overlay (a b : AudioSeg) : (overlay a b).length = a.length := by
  simp [overlay]
  omega

theorem length_repeatSeg (a : AudioSeg) (n : ℕ) :
    (repeatSeg a n).length = n * a.length := by
  simp [repeatSeg]

theorem length_fadeInLin (a : AudioSeg) : (fadeInLin a).length = a.length := by
  simp [fadeInLin]

theorem length_fadeOutLin (a : AudioSeg) : (fadeOutLin a).length = a.length := by
  simp [fadeOutLin]

theorem length_appendCrossfade (a b : AudioSeg) (c : ℕ)
    (ha : c ≤ a.length) (hb : c ≤ b.length) :
    (appendCrossfade a b c).length = a.length + b.length - c := by
  simp [appendCrossfade, length_overlay, length_fadeOutLin]
  omega

/-! ## Voice fingerprint cache (`app/services/fingerprint.py`) -/

/-- `np.dot(a_arr, b_arr)` on equal-length vectors. -/
noncomputable def dotList (a b : List ℝ) : ℝ := (List.zipWith (· * ·) a b).sum

/-- Sum of squares of the entries. -/
noncomputable def sumSq (a : List ℝ) : ℝ := (a.map (· ^ 2)).sum

/-- `np.linalg.norm`: the Euclidean norm. -/
noncomputable def norm2 (a : List ℝ) : ℝ := Real.sqrt (sumSq a)

/-- `_cosine_similarity` (fingerprint.py lines 55-63): `dot / (‖a‖ * ‖b‖)`,
returning `0.0` when the norm product is zero. -/
noncomputable def cosineSimilarity (a b : List ℝ) : ℝ :=
  let dot := dotList a b
  let norm := norm2 a * norm2 b
  if norm = 0 then 0 else dot / norm

/-- A stored `SpeakerProfile` row (models.py lines 105-115), with
`embedding_json` already parsed and `last_used_at` as an abstract clock
value. -/
structure SpeakerProfile where
  id : String := ""
  name : String := ""
  embedding : List ℝ := []
  elevenlabs_voice_id : String := ""
  sample_file : String := ""
  last_used_at : ℕ := 0

/-- The `for profile in profiles` loop of `find_matching_profile`
(fingerprint.py lines 79-84): fold tracking `(best_match, best_score)`,
starting from `(None, 0.0)`; `i` is the index of the head of `l` in the full
profile list. -/
noncomputable def bestMatchAux (embedding : List ℝ) (threshold : ℝ) :
    List SpeakerProfile → ℕ → Option ℕ × ℝ → Option ℕ × ℝ
  | [], _, acc => acc
  | p :: rest, i, acc =>
      let score := cosineSimilarity embedding p.embedding
      bestMatchAux embedding threshold rest (i + 1)
        (if threshold ≤ score ∧ acc.2 < score then (some i, score) else acc)

/-- `find_matching_profile` (fingerprint.py lines 66-98): scans all stored
profiles, returns the best match with similarity at or above the threshold
(updating its `last_used_at` to the current time in the store), or `none`
leaving the store untouched.  `now` is the current clock value. -/
noncomputable def find_matching_profile (now : ℕ) (profiles : List SpeakerProfile)
    (embedding : List ℝ) (threshold : ℝ) :
    Option SpeakerProfile × List SpeakerProfile :=
  match (bestMatchAux embedding threshold profiles 0 (none, 0)).1 with
  | none => (none, profiles)
  | some i =>
      match profiles[i]? with
      | none => (none, profiles)
      | some p =>
          let p' := { p with last_used_at := now }
          (some p', profiles.set i p')

/-! ## Report generator (`app/services/claude.py`, `generate_report`) -/

/-- Python `str.strip()`: drop leading and trailing whitespace (implemented
structurally over the character list so it computes by reduction). -/
def pyStrip (s : String) : String :=
  String.mk (((s.data.dropWhile Char.isWhitespace).reverse.dropWhile
    Char.isWhitespace).reverse)

/-- Python `s[:n]` on a string: the first `n` characters. -/
def pyTake (s : String) (n : ℕ) : String := String.mk (s.data.take n)

/-- The untranslated test of claude.py lines 122-124: both texts are
whitespace-stripped, compared for equality, and the stripped original must be
non-empty. -/
def isUntranslated (s : Segment) : Bool :=
  let orig := pyStrip s.text
  let trans := pyStrip (s.translated_text.getD "")
  (orig == trans) && !(orig == "")

/-- The `untranslated` list of claude.py lines 120-127:
`(index, first 80 chars of stripped text, detected language name)`. -/
def untranslatedOf (translated : List Segment) : List (ℕ × String × String) :=
  (translated.enum.filter (fun p => isUntranslated p.2)).map
    (fun p => (p.1, pyTake (pyStrip p.2.text) 80, p.2.detected_language.getD "Unknown"))

/-- Python `round` on an exact rational: round half to even (banker's
rounding).  Deviations of binary floating point from the exact rational are
not modelled. -/
def roundHalfEven (q : ℚ) : ℤ :=
  let f := ⌊q⌋
  let frac := q - f
  if frac < 1 / 2 then f
  else if 1 / 2 < frac then f + 1
  else if f % 2 = 0 then f else f + 1

/-- Python `round(x, 1)`. -/
def roundTo1 (q : ℚ) : ℚ := (roundHalfEven (q * 10) : ℚ) / 10

/-- `translation_pct` (claude.py line 130):
`round(translated_count / total_segments * 100, 1)` and `0` when there are no
segments. -/
def translationPct (total untransCount : ℕ) : ℚ :=
  if total = 0 then 0
  else roundTo1 (((total - untransCount : ℕ) : ℚ) / (total : ℚ) * 100)

/-- Truthiness of an optional string (`None` and `""` are falsy). -/
def pathTruthy : Option String → Bool
  | none => false
  | some p => !(p == "")

/-- The quantities computed by `generate_report` (claude.py lines 112-143);
the surrounding markdown prose is not modelled.  `duration_ms` is the maximum
segment end time (the source divides by 60 000 for display only). -/
structure Report where
  total_segments : ℕ := 0
  untranslated : List (ℕ × String × String) := []
  translated_count : ℕ := 0
  translation_pct : ℚ := 0
  duration_ms : ℕ := 0
  num_speakers : ℕ := 0
  has_vocals : Bool := false
  has_background : Bool := false
deriving DecidableEq, Repr

/-! ## Job rows and the pipeline controller (`app/models.py`,
`app/pipeline/tasks.py`, `app/pipeline/worker.py`) -/

/-- A Python exception escaping a stage body: celery's
`SoftTimeLimitExceeded` or any other exception carrying its message. -/
inductive PyErr where
  | softTimeLimit : PyErr
  | exn : String → PyErr
deriving DecidableEq, Repr

/-- The `Job` row (models.py lines 40-102), with JSON artifact columns
parsed: `transcript`/`translated`/`edited` model `transcript_json`/
`translated_json`/`edited_json` (`none` = SQL NULL, `some l` = the dumped
list), `voice_map` models `voice_map_json` as an association list, and
`stage_log` keeps the log messages (timestamps dropped).  `enabled_stages`
models `enabled_stages_json`, the stage-number list written at upload and
read by the routers.  `final_audio` carries the content of the written final
track.  File-path artifacts are recorded paths; a recorded path is on disk
(stage bodies write the files they record, and no deletions are modelled). -/
structure JobState where
  status : String := "pending"
  current_stage : ℕ := 0
  stage_name : String := ""
  target_language : String := ""
  enabled_stages : List ℕ := [1, 2, 3, 4, 5, 6, 7]
  original_file : String := ""
  cleaned_file : Option String := none
  vocals_file : Option String := none
  background_file : Option String := none
  transcript : Option (List Segment) := none
  translated : Option (List Segment) := none
  edited : Option (List Segment) := none
  voice_map : Option (List (String × String)) := none
  output_file : Option String := none
  final_audio : Option AudioSeg := none
  report : Option Report := none
  error_message : Option String := none
  stage_log : List String := []
deriving DecidableEq, Repr

/-- `generate_report` (claude.py lines 108-143) over a job row.  The
`x or "[]"` / `or`-chains on JSON strings become `Option.getD` / `<|>`
(a dumped list is a truthy string even when the list is empty). -/
def generate_report (job : JobState) : Report :=
  let segments := job.transcript.getD []
  let translated := (job.edited <|> job.translated).getD []
  let voice_map := job.voice_map.getD []
  let total := translated.length
  let untranslated := untranslatedOf translated
  { total_segments := total
    untranslated := untranslated
    translated_count := total - untranslated.length
    translation_pct := translationPct total untranslated.length
    duration_ms := (segments.map (·.end_ms)).foldr max 0
    num_speakers := voice_map.length
    has_vocals := pathTruthy job.vocals_file
    has_background := pathTruthy job.background_file }

/-- The provider environment of one run: what each stage's provider calls
would produce, or the exception they raise.  `stageResult n` is consulted at
the provider calls of stage `n`'s body (`none` = all calls succeed).
`transcriptOut` is the language-enriched transcript after stages 3+3b,
`ttsAudio i` the synthesized clip for segment index `i`, `bgGain` the
amplitude factor for `bg_volume_db=-12.0`, and `bgExists` whether
`Path(background_file).exists()`. -/
structure Env where
  stageResult : ℕ → Option PyErr := fun _ => none
  cleanedPath : String := "cleaned.mp3"
  vocalsPath : String := "vocals.mp3"
  backgroundPath : String := "background.mp3"
  transcriptOut : List Segment := []
  translatedOut : List Segment := []
  voiceMapOut : List (String × String) := []
  ttsAudio : ℕ → AudioSeg := fun _ => []
  bgAudio : AudioSeg := []
  bgGain : ℚ := 1
  bgExists : Bool := true
  finalPath : String := "final.mp3"

/-- The job row together with the ghost list of stage bodies invoked so far
(in order), used to state the idempotent-skip property. -/
structure RunState where
  job : JobState
  invoked : List ℕ := []
deriving DecidableEq, Repr

/-- A pipeline step either raises (carrying the database state at the raise)
or yields the updated state. -/
abbrev StepResult := Except (PyErr × RunState) RunState

/-- Sequencing of pipeline steps: a raised exception propagates. -/
def StepResult.andThen (r : StepResult) (f : RunState → StepResult) : StepResult :=
  match r with
  | .error e => .error e
  | .ok rs => f rs

/-- `_log_stage`: append a message to the job's `stage_log`. -/
def logMsg (rs : RunState) (m : String) : RunState :=
  { rs with job := { rs.job with stage_log := rs.job.stage_log ++ [m] } }

/-- Truthiness of an optional parsed JSON list, modelling
`x and json.loads(x)`: NULL is falsy; a dumped list is a truthy string whose
parse is truthy iff the list is non-empty. -/
def jsonListTruthy {α : Type} : Option (List α) → Bool
  | none => false
  | some l => !l.isEmpty

/-- The stage-1 block of `run_pipeline` (tasks.py lines 78-88); the stage
body records `cleaned_file` (stage_1_audio_cleanup). -/
def step1 (env : Env) (sf : ℕ) (rs : RunState) : StepResult :=
  if sf ≤ 1 then
    if pathTruthy rs.job.cleaned_file then
      .ok (logMsg rs "Stage 1 skipped — cleaned audio already exists")
    else
      let job := { rs.job with
        status := "processing"
        current_stage := 1
        stage_name := "Audio Cleanup (Auphonic)" }
      let rs := { rs with job := job }
      let rs := logMsg rs "Stage 1: Uploading to Auphonic for audio cleanup..."
      let rs := { rs with invoked := rs.invoked ++ [1] }
      match env.stageResult 1 with
      | some e => .error (e, rs)
      | none =>
          let rs := { rs with job := { rs.job with cleaned_file := some env.cleanedPath } }
          .ok (logMsg rs "Stage 1 complete — audio cleaned")
  else
    .ok { rs with job := { rs.job with status := "processing" } }

/-- The stage-2 block (tasks.py lines 90-99); the body records the vocals and
background paths (stage_2_source_separation). -/
def step2 (env : Env) (sf : ℕ) (rs : RunState) : StepResult :=
  if sf ≤ 2 then
    if pathTruthy rs.job.vocals_file then
      .ok (logMsg rs "Stage 2 skipped — vocals/background already separated")
    else
      let job := { rs.job with
        current_stage := 2
        stage_name := "Source Separation" }
      let rs := { rs with job := job }
      let rs := logMsg rs "Stage 2: Separating vocals from music/SFX (MDX-NET ONNX, CPU)..."
      let rs := { rs with invoked := rs.invoked ++ [2] }
      match env.stageResult 2 with
      | some e => .error (e, rs)
      | none =>
          let job := { rs.job with
            vocals_file := some env.vocalsPath
            background_file := some env.backgroundPath }
          let rs := { rs with job := job }
          .ok (logMsg rs "Stage 2 complete — vocals and background tracks ready")
  else .ok rs

/-- The stage-3 block (tasks.py lines 101-114): transcription (3) then
language detection (3b) inside the same non-skip branch; one body invocation
is recorded and the enriched transcript is written. -/
def step3 (env : Env) (sf : ℕ) (rs : RunState) : StepResult :=
  if sf ≤ 3 then
    if jsonListTruthy rs.job.transcript then
      .ok (logMsg rs "Stage 3 skipped — transcript already exists")
    else
      let job := { rs.job with
        current_stage := 3
        stage_name := "Transcription + Diarization (Whisper + pyannote)" }
      let rs := { rs with job := job }
      let rs := logMsg rs "Stage 3: Running speaker diarization + Whisper transcription..."
      let rs := { rs with invoked := rs.invoked ++ [3] }
      match env.stageResult 3 with
      | some e => .error (e, rs)
      | none =>
          let job := { rs.job with
            transcript := some env.transcriptOut
            stage_name := "Detecting Languages" }
          let rs := { rs with job := job }
          let rs := logMsg rs "Stage 3b: Detecting languages in transcript segments..."
          .ok (logMsg rs "Stage 3 complete — transcript + languages ready")
  else .ok rs

/-- The stage-4 block (tasks.py lines 116-125); the body records the
translated segments (stage_4_translation). -/
def step4 (env : Env) (sf : ℕ) (rs : RunState) : StepResult :=
  if sf ≤ 4 then
    if jsonListTruthy rs.job.translated then
      .ok (logMsg rs "Stage 4 skipped — translation already exists")
    else
      let job := { rs.job with
        current_stage := 4
        stage_name := "Translation (Google + Claude)" }
      let rs := { rs with job := job }
      let rs := logMsg rs "Stage 4: Translating with Google Translate + Claude polish..."
      let rs := { rs with invoked := rs.invoked ++ [4] }
      match env.stageResult 4 with
      | some e => .error (e, rs)
      | none =>
          let rs := { rs with job := { rs.job with translated := some env.translatedOut } }
          .ok (logMsg rs "Stage 4 complete — translation polished")
  else .ok rs

/-- The human-review seam (tasks.py lines 127-130): copy the translated
segments into the edited slot when no edit exists yet. -/
def stepSeam (rs : RunState) : StepResult :=
  if rs.job.edited.isNone then
    .ok { rs with job := { rs.job with edited := rs.job.translated } }
  else .ok rs

/-- The stage-5 block (tasks.py lines 132-141); the body records the voice
map (stage_5_voice_cloning). -/
def step5 (env : Env) (sf : ℕ) (rs : RunState) : StepResult :=
  if sf ≤ 5 then
    if jsonListTruthy rs.job.voice_map then
      .ok (logMsg rs "Stage 5 skipped — voice clones already cached")
    else
      let job := { rs.job with
        current_stage := 5
        stage_name := "Voice Cloning (ElevenLabs)" }
      let rs := { rs with job := job }
      let rs := logMsg rs "Stage 5: Extracting speaker samples and cloning voices..."
      let rs := { rs with invoked := rs.invoked ++ [5] }
      match env.stageResult 5 with
      | some e => .error (e, rs)
      | none =>
          let rs := { rs with job := { rs.job with voice_map := some env.voiceMapOut } }
          .ok (logMsg rs "Stage 5 complete — voices cloned")
  else .ok rs

/-- The TTS text of a segment (tasks.py line 350):
`segment.get("translated_text", segment.get("text", ""))`. -/
def synthText (s : Segment) : String := s.translated_text.getD s.text

/-- `voice_map.get(speaker)`. -/
def lookupVoice (vm : List (String × String)) (sp : String) : Option String :=
  (vm.find? (fun p => p.1 == sp)).map (·.2)

/-- Whether stage 6 synthesizes a clip for this segment (tasks.py lines
349-354): the speaker's voice id must be truthy and the text non-blank. -/
def synthesizable (vm : List (String × String)) (s : Segment) : Bool :=
  match lookupVoice vm s.speaker with
  | none => false
  | some v => !(v == "") && !(pyStrip (synthText s) == "")

/-- The indices of the segments for which stage 6 writes a TTS clip
(`segment_files`, tasks.py lines 347-358). -/
def stage6Files (vm : List (String × String)) (segments : List Segment) : List ℕ :=
  (segments.enum.filter (fun p => synthesizable vm p.2)).map (·.1)

/-- Python's `json.loads(None)` error message. -/
def jsonNoneMsg : String :=
  "the JSON object must be str, bytes or bytearray, not NoneType"

/-- The stage-6 block (tasks.py lines 143-147) and its body
`stage_6_speech_generation` (lines 333-387): parse the edited (else
translated) segments and the voice map, synthesize each eligible segment
(provider calls happen only when at least one segment is eligible), stitch
(raising on an empty list), then smart-mix with the background when it is
recorded and on disk, else emit the stitched TTS as the final track. -/
def step6 (env : Env) (sf : ℕ) (rs : RunState) : StepResult :=
  if sf ≤ 6 then
    let job := { rs.job with
      current_stage := 6
      stage_name := "Speech Generation + Mix (ElevenLabs TTS)" }
    let rs := { rs with job := job }
    let rs := logMsg rs "Stage 6: Generating speech for each segment..."
    let rs := { rs with invoked := rs.invoked ++ [6] }
    match rs.job.edited <|> rs.job.translated with
    | none => .error (.exn jsonNoneMsg, rs)
    | some segments =>
        match rs.job.voice_map with
        | none => .error (.exn jsonNoneMsg, rs)
        | some vm =>
            let files := stage6Files vm segments
            match (if files.isEmpty then none else env.stageResult 6) with
            | some e => .error (e, rs)
            | none =>
                match stitch_segments (files.map env.ttsAudio) 100 with
                | .error m => .error (.exn m, rs)
                | .ok tts =>
                    if pathTruthy rs.job.background_file && env.bgExists then
                      let rs := logMsg rs "Smart mixing TTS with background audio (preserving intro/outro)..."
                      let mixed := smart_mix tts env.bgAudio
                        (rs.job.transcript.getD []) env.bgGain 500
                      let job := { rs.job with
                        final_audio := some mixed
                        output_file := some env.finalPath }
                      let rs := { rs with job := job }
                      let rs := logMsg rs "Smart mix complete — background music preserved with intro/outro"
                      .ok (logMsg rs "Stage 6 complete — final audio mixed")
                    else
                      let rs := logMsg rs "No background track available — using TTS-only output"
                      let job := { rs.job with
                        final_audio := some tts
                        output_file := some env.finalPath }
                      let rs := { rs with job := job }
                      .ok (logMsg rs "Stage 6 complete — final audio mixed")
  else .ok rs

/-- Report generation and completion (tasks.py lines 149-155). -/
def stepReport (rs : RunState) : StepResult :=
  let rs := { rs with job := { rs.job with stage_name := "Generating Report" } }
  let rs := logMsg rs "Generating pipeline quality report..."
  let rs := { rs with job := { rs.job with report := some (generate_report rs.job) } }
  let job := { rs.job with
    status := "completed"
    stage_name := "Complete" }
  let rs := { rs with job := job }
  .ok (logMsg rs "Pipeline completed successfully")

/-- The `try` body of `run_pipeline` (tasks.py lines 72-155). -/
def runBody (env : Env) (sf : ℕ) (rs : RunState) : StepResult :=
  (((((((step1 env sf rs).andThen
    (step2 env sf)).andThen
    (step3 env sf)).andThen
    (step4 env sf)).andThen
    stepSeam).andThen
    (step5 env sf)).andThen
    (step6 env sf)).andThen
    stepReport

/-- The run preamble (tasks.py lines 74-75): clear the stale error and log,
then log the start message. -/
def initRun (sf : ℕ) (st0 : JobState) : RunState :=
  { job := { st0 with
      error_message := none
      stage_log := ["Pipeline starting from stage " ++ toString sf] }
    invoked := [] }

/-- `run_pipeline(job_id, start_from)` (tasks.py lines 68-165): run the
stage blocks, catching `SoftTimeLimitExceeded` and any other exception at
the top, marking the job failed with the corresponding message. -/
def run_pipeline (env : Env) (job0 : JobState) (start_from : ℕ := 1) : RunState :=
  match runBody env start_from (initRun start_from job0) with
  | .ok rs => rs
  | .error (.softTimeLimit, rs) =>
      { rs with job := { rs.job with
          status := "failed"
          error_message := some "Task exceeded time limit — please retry"
          stage_log := rs.job.stage_log ++
            ["FAILED: Task exceeded time limit — please retry"] } }
  | .error (.exn m, rs) =>
      { rs with job := { rs.job with
          status := "failed"
          error_message := some m
          stage_log := rs.job.stage_log ++ ["FAILED: " ++ m] } }

/-- `resume_pipeline` (tasks.py lines 168-171). -/
def resume_pipeline (env : Env) (job0 : JobState) : RunState :=
  run_pipeline env job0 6

/-- `recover_orphaned_jobs` (worker.py lines 31-48): on worker startup every
`processing` job becomes `failed` with the restart message. -/
def recover_orphaned_jobs (jobs : List JobState) : List JobState :=
  jobs.map (fun j =>
    if j.status = "processing" then
      { j with
        status := "failed"
        error_message := some "Worker restarted during processing — please retry" }
    else j)

/-- The upload-time stage validation (upload.py lines 19, 39-42): stages 4,
6, 7 of the 7-stage UI numbering are required and all numbers must lie in
1..7. -/
def stagesValid (enabled : List ℕ) : Bool :=
  ([4, 6, 7].all (fun s => enabled.contains s)) &&
    (enabled.all (fun s => 1 ≤ s && s ≤ 7))

instance : Inhabited JobState := ⟨{}⟩

/-! ## C2 — recovery invariant -/

/-- C2: for every job whose status is `processing` when the worker-startup
recovery hook runs, after `recover_orphaned_jobs` the job's status is
`failed` and its `error_message` is non-empty. -/
theorem recovery_invariant (jobs : List JobState) (i : ℕ)
    (hi : i < jobs.length)
    (hp : (jobs.getD i default).status = "processing") :
    ((recover_orphaned_jobs jobs).getD i default).status = "failed" ∧
      ∃ m, ((recover_orphaned_jobs jobs).getD i default).error_message = some m ∧
        m ≠ "" := by
  rw [List.getD_eq_getElem?_getD] at *
  unfold recover_orphaned_jobs
  rw [List.getElem?_map]
  rcases h : jobs[i]? with _ | j
  · exact absurd (List.getElem?_eq_none_iff.mp h) (by omega)
  · rw [h] at hp
    simp only [Option.map_some', Option.getD_some] at *
    rw [if_pos hp]
    exact ⟨rfl, "Worker restarted during processing — please retry", rfl, by decide⟩

/-- Witness for C2 at a one-job store holding a `processing` job. -/
theorem recovery_invariant_witness :
    ((recover_orphaned_jobs [{ status := "processing" }]).getD 0 default).status
        = "failed" ∧
      ∃ m, ((recover_orphaned_jobs [{ status := "processing" }]).getD 0
          default).error_message = some m ∧ m ≠ "" :=
  recovery_invariant [{ status := "processing" }] 0 (by decide) (by decide)

/-! ## C7 — top-level failure semantics -/

/-- C7: when a stage body raises an unrecovered exception, `run_pipeline`
marks the job `failed`, sets `error_message` to the exception's message and
appends the failure event to `stage_log`; a `SoftTimeLimitExceeded` (the
20-minute celery budget) is instead reported with the distinguishable
"Task exceeded time limit — please retry" message. -/
theorem failure_semantics (env : Env) (job0 : JobState) (sf : ℕ) :
    (∀ m rs, runBody env sf (initRun sf job0) = .error (.exn m, rs) →
      (run_pipeline env job0 sf).job.status = "failed" ∧
      (run_pipeline env job0 sf).job.error_message = some m ∧
      (run_pipeline env job0 sf).job.stage_log =
        rs.job.stage_log ++ ["FAILED: " ++ m]) ∧
    (∀ rs, runBody env sf (initRun sf job0) = .error (.softTimeLimit, rs) →
      (run_pipeline env job0 sf).job.status = "failed" ∧
      (run_pipeline env job0 sf).job.error_message =
        some "Task exceeded time limit — please retry" ∧
      (run_pipeline env job0 sf).job.stage_log =
        rs.job.stage_log ++ ["FAILED: Task exceeded time limit — please retry"]) := by
  constructor
  · intro m rs h
    simp [run_pipeline, h]
  · intro rs h
    simp [run_pipeline, h]

/-- The run state at the point stage 1 raises on a fresh job. -/
def rsAtStage1Raise : RunState where
  job := { status := "processing"
           current_stage := 1
           stage_name := "Audio Cleanup (Auphonic)"
           stage_log := ["Pipeline starting from stage 1",
             "Stage 1: Uploading to Auphonic for audio cleanup..."] }
  invoked := [1]

/-- The environment whose stage-1 provider raises "boom". -/
def envBoom : Env := { stageResult := fun n => if n = 1 then some (.exn "boom") else none }

/-- The environment whose stage-1 provider hits the soft time limit. -/
def envTimeout : Env := { stageResult := fun _ => some .softTimeLimit }

/-- Witness for C7: a provider failure (stage 1 raising "boom") and a
time-limit hit, each on a fresh job. -/
theorem failure_semantics_witness :
    ((run_pipeline envBoom {} 1).job.status = "failed" ∧
      (run_pipeline envBoom {} 1).job.error_message = some "boom") ∧
    (run_pipeline envTimeout {} 1).job.error_message =
      some "Task exceeded time limit — please retry" := by
  refine ⟨⟨?_, ?_⟩, ?_⟩
  · exact ((failure_semantics envBoom {} 1).1 "boom" rsAtStage1Raise rfl).1
  · exact ((failure_semantics envBoom {} 1).1 "boom" rsAtStage1Raise rfl).2.1
  · exact ((failure_semantics envTimeout {} 1).2 rsAtStage1Raise rfl).2.1

/-! ## C8 — zero-length / absent background -/

/-- C8: `smart_mix` with a zero-length background returns the synthesized
speech unchanged, and stage 6 with no recorded background file emits the
stitched synthesized speech as the final track unchanged. -/
theorem empty_background_passthrough :
    (∀ (tts : AudioSeg) (tr : List Segment) (g : ℚ) (c : ℕ),
      smart_mix tts [] tr g c = tts) ∧
    (∀ (env : Env) (rs : RunState) (segs : List Segment)
      (vm : List (String × String)) (tts : AudioSeg),
      rs.job.background_file = none →
      (rs.job.edited <|> rs.job.translated) = some segs →
      rs.job.voice_map = some vm →
      env.stageResult 6 = none →
      stitch_segments ((stage6Files vm segs).map env.ttsAudio) 100 = .ok tts →
      ∃ rs', step6 env 6 rs = .ok rs' ∧ rs'.job.final_audio = some tts ∧
        rs'.job.output_file = some env.finalPath) := by
  constructor
  · intro tts tr g c
    simp [smart_mix, ensureStereo, setFrameRate]
  · intro env rs segs vm tts hbg hsegs hvm henv hst
    have hne : (stage6Files vm segs).isEmpty = false := by
      rcases h : stage6Files vm segs with _ | ⟨a, l⟩
      · rw [h] at hst; simp [stitch_segments] at hst
      · rfl
    simp [step6, logMsg, hsegs, hvm, hne, henv, hbg, pathTruthy, hst]

/-- The stage-6 environment for the C8 witness: one one-segment TTS clip. -/
def envTTSOnly : Env := { ttsAudio := fun _ => [1, 2] }

/-- The C8 witness job: edited segments and voice map present, no background
file recorded. -/
def rsNoBackground : RunState where
  job := { edited := some [{ translated_text := some "t" }]
           voice_map := some [("Speaker", "v")]
           background_file := none }
  invoked := []

/-- Witness for C8: a singleton mix with empty background, and stage 6 with
no background file emitting the stitched clip `[1, 2]` unchanged. -/
theorem empty_background_passthrough_witness :
    smart_mix [1] [] [] 1 500 = [1] ∧
      ∃ rs', step6 envTTSOnly 6 rsNoBackground = .ok rs' ∧
        rs'.job.final_audio = some [1, 2] ∧
        rs'.job.output_file = some envTTSOnly.finalPath :=
  ⟨empty_background_passthrough.1 [1] [] 1 500,
   empty_background_passthrough.2 envTTSOnly rsNoBackground
     [{ translated_text := some "t" }] [("Speaker", "v")] [1, 2]
     rfl rfl rfl rfl rfl⟩

/-! ## C10 — no synthesizable segment -/

/-- The `segment_files` list is empty when no segment is synthesizable. -/
theorem stage6Files_eq_nil {segs : List Segment} {vm : List (String × String)}
    (hall : ∀ s ∈ segs, synthesizable vm s = false) :
    stage6Files vm segs = [] := by
  simp only [stage6Files, List.map_eq_nil_iff, List.filter_eq_nil_iff]
  intro p hp
  simp [hall p.2 (List.getElem?_mem (List.mem_enum_iff_getElem?.mp hp))]

/-- C10: when no segment is synthesizable (no voice-map entry for its
speaker, or blank text), stage 6 passes an empty list to `stitch_segments`,
whose `ValueError` aborts the run: the job is marked failed with
"No segment files to stitch" instead of producing an empty final track. -/
theorem no_synthesizable_segment_fails (env : Env) (job0 : JobState)
    (segs : List Segment) (vm : List (String × String))
    (hsegs : (job0.edited <|> job0.translated) = some segs)
    (hvm : job0.voice_map = some vm)
    (hall : ∀ s ∈ segs, synthesizable vm s = false) :
    (run_pipeline env job0 6).job.status = "failed" ∧
    (run_pipeline env job0 6).job.error_message = some "No segment files to stitch" := by
  have hfiles : stage6Files vm segs = [] := stage6Files_eq_nil hall
  rcases he : job0.edited with _ | ed
  · have ht : job0.translated = some segs := by
      rw [he] at hsegs; simpa using hsegs
    simp [run_pipeline, runBody, StepResult.andThen, step1, step2, step3, step4,
      step5, step6, stepSeam, stepReport, initRun, logMsg, he, ht, hvm, hfiles,
      stitch_segments]
  · have hsegs2 : (some ed <|> job0.translated) = some segs := he ▸ hsegs
    simp [run_pipeline, runBody, StepResult.andThen, step1, step2, step3, step4,
      step5, step6, stepSeam, stepReport, initRun, logMsg, he, hvm, hfiles,
      stitch_segments, hsegs2]

/-- The C10 witness job: one default segment, empty voice map. -/
def jobNoVoices : JobState :=
  { translated := some [{}]
    voice_map := some [] }

/-- Witness for C10 on a job whose single segment has no voice-map entry. -/
theorem no_synthesizable_segment_fails_witness :
    (run_pipeline {} jobNoVoices 6).job.status = "failed" ∧
    (run_pipeline {} jobNoVoices 6).job.error_message =
      some "No segment files to stitch" :=
  no_synthesizable_segment_fails {} jobNoVoices [{}] [] rfl rfl (by decide)

/-! ## C4 — `enabled_stages` and the pipeline -/

/-- Replace a run state's `enabled_stages` field. -/
def mapES (es : List ℕ) (rs : RunState) : RunState :=
  ⟨{ rs.job with enabled_stages := es }, rs.invoked⟩

/-- Replace `enabled_stages` inside a step result. -/
def mapESR (es : List ℕ) : StepResult → StepResult
  | .ok rs => .ok (mapES es rs)
  | .error (e, rs) => .error (e, mapES es rs)

theorem step1_mapES (env : Env) (sf : ℕ) (es : List ℕ) (rs : RunState) :
    step1 env sf (mapES es rs) = mapESR es (step1 env sf rs) := by
  simp only [step1, mapES, mapESR, logMsg]
  split
  · split
    · rfl
    · cases env.stageResult 1 <;> rfl
  · rfl

theorem step2_mapES (env : Env) (sf : ℕ) (es : List ℕ) (rs : RunState) :
    step2 env sf (mapES es rs) = mapESR es (step2 env sf rs) := by
  simp only [step2, mapES, mapESR, logMsg]
  split
  · split
    · rfl
    · cases env.stageResult 2 <;> rfl
  · rfl

theorem step3_mapES (env : Env) (sf : ℕ) (es : List ℕ) (rs : RunState) :
    step3 env sf (mapES es rs) = mapESR es (step3 env sf rs) := by
  simp only [step3, mapES, mapESR, logMsg]
  split
  · split
    · rfl
    · cases env.stageResult 3 <;> rfl
  · rfl

theorem step4_mapES (env : Env) (sf : ℕ) (es : List ℕ) (rs : RunState) :
    step4 env sf (mapES es rs) = mapESR es (step4 env sf rs) := by
  simp only [step4, mapES, mapESR, logMsg]
  split
  · split
    · rfl
    · cases env.stageResult 4 <;> rfl
  · rfl

theorem stepSeam_mapES (es : List ℕ) (rs : RunState) :
    stepSeam (mapES es rs) = mapESR es (stepSeam rs) := by
  simp only [stepSeam, mapES, mapESR]
  split <;> rfl

theorem step5_mapES (env : Env) (sf : ℕ) (es : List ℕ) (rs : RunState) :
    step5 env sf (mapES es rs) = mapESR es (step5 env sf rs) := by
  simp only [step5, mapES, mapESR, logMsg]
  split
  · split
    · rfl
    · cases env.stageResult 5 <;> rfl
  · rfl

theorem step6_mapES (env : Env) (sf : ℕ) (es : List ℕ) (rs : RunState) :
    step6 env sf (mapES es rs) = mapESR es (step6 env sf rs) := by
  simp only [step6, mapES, mapESR, logMsg]
  split
  · cases rs.job.edited <|> rs.job.translated with
    | none => rfl
    | some segments =>
      dsimp only
      cases rs.job.voice_map with
      | none => rfl
      | some vm =>
        dsimp only
        cases (if (stage6Files vm segments).isEmpty = true then none
            else env.stageResult 6) with
        | some e => rfl
        | none =>
          dsimp only
          cases stitch_segments (List.map env.ttsAudio (stage6Files vm segments)) with
          | error m => rfl
          | ok tts =>
            dsimp only
            cases (pathTruthy rs.job.background_file && env.bgExists) with
            | false => rfl
            | true => rfl
  · rfl

theorem stepReport_mapES (es : List ℕ) (rs : RunState) :
    stepReport (mapES es rs) = mapESR es (stepReport rs) := by
  simp only [stepReport, mapES, mapESR, logMsg, generate_report]

theorem andThen_mapESR (es : List ℕ) (r : StepResult) {f : RunState → StepResult}
    (hf : ∀ rs, f (mapES es rs) = mapESR es (f rs)) :
    (mapESR es r).andThen f = mapESR es (r.andThen f) := by
  cases r with
  | ok rs => simp [StepResult.andThen, mapESR, hf]
  | error e =>
      obtain ⟨e, rs⟩ := e
      simp [StepResult.andThen, mapESR]

theorem runBody_mapES (env : Env) (sf : ℕ) (es : List ℕ) (rs : RunState) :
    runBody env sf (mapES es rs) = mapESR es (runBody env sf rs) := by
  unfold runBody
  rw [step1_mapES, andThen_mapESR es _ (step2_mapES env sf es),
    andThen_mapESR es _ (step3_mapES env sf es),
    andThen_mapESR es _ (step4_mapES env sf es),
    andThen_mapESR es _ (stepSeam_mapES es),
    andThen_mapESR es _ (step5_mapES env sf es),
    andThen_mapESR es _ (step6_mapES env sf es),
    andThen_mapESR es _ (stepReport_mapES es)]

/-- C4 (amended): `run_pipeline` never consults `enabled_stages` — the run
is identical (same invoked stage bodies, same resulting job up to the
`enabled_stages` field itself) for every value of it — and the upload
endpoint merely validates that stages 4, 6 and 7 of the 7-stage UI numbering
(transcription, voice cloning, speech generation) are enabled. -/
theorem enabled_stages_not_consulted (env : Env) (job : JobState) (sf : ℕ)
    (es : List ℕ) :
    ((run_pipeline env { job with enabled_stages := es } sf).job =
        { (run_pipeline env job sf).job with enabled_stages := es } ∧
      (run_pipeline env { job with enabled_stages := es } sf).invoked =
        (run_pipeline env job sf).invoked) ∧
    (∀ s : List ℕ, stagesValid s = true → 4 ∈ s ∧ 6 ∈ s ∧ 7 ∈ s) := by
  constructor
  · have hinit : initRun sf { job with enabled_stages := es }
        = mapES es (initRun sf job) := rfl
    unfold run_pipeline
    rw [hinit, runBody_mapES]
    cases runBody env sf (initRun sf job) with
    | ok rs => exact ⟨rfl, rfl⟩
    | error e =>
        obtain ⟨e, rs⟩ := e
        cases e <;> exact ⟨rfl, rfl⟩
  · intro s hs
    simp only [stagesValid, List.all_cons, List.all_nil, Bool.and_true,
      Bool.and_eq_true] at hs
    exact ⟨List.mem_of_elem_eq_true hs.1.1, List.mem_of_elem_eq_true hs.1.2.1,
      List.mem_of_elem_eq_true hs.1.2.2⟩

/-- The C4 counterexample job: stage 1 is not in `enabled_stages`. -/
def jobStagesDisabled : JobState := { enabled_stages := [4, 6, 7] }

/-- The C4 counterexample environment (all providers succeed). -/
def envC4 : Env := { bgExists := false
                     transcriptOut := [{}]
                     translatedOut := [{ translated_text := some "t" }]
                     voiceMapOut := [("Speaker", "v")]
                     ttsAudio := fun _ => [1] }

/-- Counterexample to C4 as stated: stage 1 is not in the job's
`enabled_stages`, yet `run_pipeline` invokes the stage-1 body. -/
theorem enabled_stages_not_skipped_cx :
    1 ∉ jobStagesDisabled.enabled_stages ∧
    1 ∈ (run_pipeline envC4 jobStagesDisabled 1).invoked := by decide

/-- Witness for C4 (amended): a concrete job runs identically with
`enabled_stages = [4, 6, 7]`, and a valid upload stage set contains 4, 6, 7. -/
theorem enabled_stages_not_consulted_witness :
    (run_pipeline {} { enabled_stages := [4, 6, 7] } 1).invoked =
      (run_pipeline {} ({} : JobState) 1).invoked ∧
    (4 ∈ ([1, 4, 6, 7] : List ℕ) ∧ 6 ∈ ([1, 4, 6, 7] : List ℕ) ∧
      7 ∈ ([1, 4, 6, 7] : List ℕ)) :=
  ⟨(enabled_stages_not_consulted {} ({} : JobState) 1 [4, 6, 7]).1.2,
   (enabled_stages_not_consulted {} ({} : JobState) 1 []).2 [1, 4, 6, 7] (by decide)⟩

/-! ## C1 — idempotent skip -/

theorem step1_run (env : Env) (rs : RunState)
    (h : rs.job.cleaned_file = none) (hok : env.stageResult 1 = none) :
    ∃ rs', step1 env 1 rs = .ok rs' ∧ rs'.invoked = rs.invoked ++ [1] ∧
      rs'.job.cleaned_file = some env.cleanedPath ∧
      rs'.job.vocals_file = rs.job.vocals_file ∧
      rs'.job.transcript = rs.job.transcript ∧
      rs'.job.translated = rs.job.translated ∧
      rs'.job.edited = rs.job.edited ∧
      rs'.job.voice_map = rs.job.voice_map := by
  simp [step1, h, hok, logMsg, pathTruthy]

theorem step1_skip (env : Env) (rs : RunState) (p : String)
    (h : rs.job.cleaned_file = some p) (hp : p ≠ "") :
    ∃ rs', step1 env 1 rs = .ok rs' ∧ rs'.invoked = rs.invoked ∧
      rs'.job.cleaned_file = rs.job.cleaned_file ∧
      rs'.job.vocals_file = rs.job.vocals_file ∧
      rs'.job.transcript = rs.job.transcript ∧
      rs'.job.translated = rs.job.translated ∧
      rs'.job.edited = rs.job.edited ∧
      rs'.job.voice_map = rs.job.voice_map := by
  simp [step1, h, hp, logMsg, pathTruthy]

theorem step2_run (env : Env) (rs : RunState)
    (h : rs.job.vocals_file = none) (hok : env.stageResult 2 = none) :
    ∃ rs', step2 env 1 rs = .ok rs' ∧ rs'.invoked = rs.invoked ++ [2] ∧
      rs'.job.cleaned_file = rs.job.cleaned_file ∧
      rs'.job.vocals_file = some env.vocalsPath ∧
      rs'.job.transcript = rs.job.transcript ∧
      rs'.job.translated = rs.job.translated ∧
      rs'.job.edited = rs.job.edited ∧
      rs'.job.voice_map = rs.job.voice_map := by
  simp [step2, h, hok, logMsg, pathTruthy]

theorem step2_skip (env : Env) (rs : RunState) (p : String)
    (h : rs.job.vocals_file = some p) (hp : p ≠ "") :
    ∃ rs', step2 env 1 rs = .ok rs' ∧ rs'.invoked = rs.invoked ∧
      rs'.job.cleaned_file = rs.job.cleaned_file ∧
      rs'.job.vocals_file = rs.job.vocals_file ∧
      rs'.job.transcript = rs.job.transcript ∧
      rs'.job.translated = rs.job.translated ∧
      rs'.job.edited = rs.job.edited ∧
      rs'.job.voice_map = rs.job.voice_map := by
  simp [step2, h, hp, logMsg, pathTruthy]

theorem step3_run (env : Env) (rs : RunState)
    (h : rs.job.transcript = none) (hok : env.stageResult 3 = none) :
    ∃ rs', step3 env 1 rs = .ok rs' ∧ rs'.invoked = rs.invoked ++ [3] ∧
      rs'.job.cleaned_file = rs.job.cleaned_file ∧
      rs'.job.vocals_file = rs.job.vocals_file ∧
      rs'.job.transcript = some env.transcriptOut ∧
      rs'.job.translated = rs.job.translated ∧
      rs'.job.edited = rs.job.edited ∧
      rs'.job.voice_map = rs.job.voice_map := by
  simp [step3, h, hok, logMsg, jsonListTruthy]

theorem step3_skip (env : Env) (rs : RunState) (l : List Segment)
    (h : rs.job.transcript = some l) (hl : l ≠ []) :
    ∃ rs', step3 env 1 rs = .ok rs' ∧ rs'.invoked = rs.invoked ∧
      rs'.job.cleaned_file = rs.job.cleaned_file ∧
      rs'.job.vocals_file = rs.job.vocals_file ∧
      rs'.job.transcript = rs.job.transcript ∧
      rs'.job.translated = rs.job.translated ∧
      rs'.job.edited = rs.job.edited ∧
      rs'.job.voice_map = rs.job.voice_map := by
  simp [step3, h, hl, logMsg, jsonListTruthy]

theorem step4_run (env : Env) (rs : RunState)
    (h : rs.job.translated = none) (hok : env.stageResult 4 = none) :
    ∃ rs', step4 env 1 rs = .ok rs' ∧ rs'.invoked = rs.invoked ++ [4] ∧
      rs'.job.cleaned_file = rs.job.cleaned_file ∧
      rs'.job.vocals_file = rs.job.vocals_file ∧
      rs'.job.transcript = rs.job.transcript ∧
      rs'.job.translated = some env.translatedOut ∧
      rs'.job.edited = rs.job.edited ∧
      rs'.job.voice_map = rs.job.voice_map := by
  simp [step4, h, hok, logMsg, jsonListTruthy]

theorem step4_skip (env : Env) (rs : RunState) (l : List Segment)
    (h : rs.job.translated = some l) (hl : l ≠ []) :
    ∃ rs', step4 env 1 rs = .ok rs' ∧ rs'.invoked = rs.invoked ∧
      rs'.job.cleaned_file = rs.job.cleaned_file ∧
      rs'.job.vocals_file = rs.job.vocals_file ∧
      rs'.job.transcript = rs.job.transcript ∧
      rs'.job.translated = rs.job.translated ∧
      rs'.job.edited = rs.job.edited ∧
      rs'.job.voice_map = rs.job.voice_map := by
  simp [step4, h, hl, logMsg, jsonListTruthy]

theorem stepSeam_none (rs : RunState) (h : rs.job.edited = none) :
    ∃ rs', stepSeam rs = .ok rs' ∧ rs'.invoked = rs.invoked ∧
      rs'.job.cleaned_file = rs.job.cleaned_file ∧
      rs'.job.vocals_file = rs.job.vocals_file ∧
      rs'.job.transcript = rs.job.transcript ∧
      rs'.job.translated = rs.job.translated ∧
      rs'.job.edited = rs.job.translated ∧
      rs'.job.voice_map = rs.job.voice_map := by
  simp [stepSeam, h]

theorem stepSeam_some (rs : RunState) (e : List Segment)
    (h : rs.job.edited = some e) :
    ∃ rs', stepSeam rs = .ok rs' ∧ rs'.invoked = rs.invoked ∧
      rs'.job.cleaned_file = rs.job.cleaned_file ∧
      rs'.job.vocals_file = rs.job.vocals_file ∧
      rs'.job.transcript = rs.job.transcript ∧
      rs'.job.translated = rs.job.translated ∧
      rs'.job.edited = rs.job.edited ∧
      rs'.job.voice_map = rs.job.voice_map := by
  simp [stepSeam, h]

theorem step5_run (env : Env) (rs : RunState)
    (h : rs.job.voice_map = none) (hok : env.stageResult 5 = none) :
    ∃ rs', step5 env 1 rs = .ok rs' ∧ rs'.invoked = rs.invoked ++ [5] ∧
      rs'.job.cleaned_file = rs.job.cleaned_file ∧
      rs'.job.vocals_file = rs.job.vocals_file ∧
      rs'.job.transcript = rs.job.transcript ∧
      rs'.job.translated = rs.job.translated ∧
      rs'.job.edited = rs.job.edited ∧
      rs'.job.voice_map = some env.voiceMapOut := by
  simp [step5, h, hok, logMsg, jsonListTruthy]

theorem step5_skip (env : Env) (rs : RunState) (vm : List (String × String))
    (h : rs.job.voice_map = some vm) (hvm : vm ≠ []) :
    ∃ rs', step5 env 1 rs = .ok rs' ∧ rs'.invoked = rs.invoked ∧
      rs'.job.cleaned_file = rs.job.cleaned_file ∧
      rs'.job.vocals_file = rs.job.vocals_file ∧
      rs'.job.transcript = rs.job.transcript ∧
      rs'.job.translated = rs.job.translated ∧
      rs'.job.edited = rs.job.edited ∧
      rs'.job.voice_map = rs.job.voice_map := by
  simp [step5, h, hvm, logMsg, jsonListTruthy]

theorem step6_ok (env : Env) (rs : RunState) (segs : List Segment)
    (vm : List (String × String))
    (hsegs : (rs.job.edited <|> rs.job.translated) = some segs)
    (hvm : rs.job.voice_map = some vm)
    (hne : stage6Files vm segs ≠ [])
    (hok : env.stageResult 6 = none) :
    ∃ rs', step6 env 1 rs = .ok rs' ∧ rs'.invoked = rs.invoked ++ [6] ∧
      rs'.job.cleaned_file = rs.job.cleaned_file ∧
      rs'.job.vocals_file = rs.job.vocals_file ∧
      rs'.job.transcript = rs.job.transcript ∧
      rs'.job.translated = rs.job.translated ∧
      rs'.job.edited = rs.job.edited ∧
      rs'.job.voice_map = rs.job.voice_map := by
  have hne' : (stage6Files vm segs).isEmpty = false := by
    simpa [List.isEmpty_iff] using hne
  have hstitch : ∃ tts,
      stitch_segments ((stage6Files vm segs).map env.ttsAudio) 100 = .ok tts := by
    rcases hf : stage6Files vm segs with _ | ⟨a, l⟩
    · exact absurd hf hne
    · exact ⟨_, rfl⟩
  obtain ⟨tts, hst⟩ := hstitch
  cases hbg : (pathTruthy rs.job.background_file && env.bgExists) <;>
    simp [step6, hsegs, hvm, hne', hok, hst, logMsg, hbg]

theorem stepReport_ok (rs : RunState) :
    ∃ rs', stepReport rs = .ok rs' ∧ rs'.invoked = rs.invoked ∧
      rs'.job.cleaned_file = rs.job.cleaned_file ∧
      rs'.job.vocals_file = rs.job.vocals_file ∧
      rs'.job.transcript = rs.job.transcript ∧
      rs'.job.translated = rs.job.translated ∧
      rs'.job.edited = rs.job.edited ∧
      rs'.job.voice_map = rs.job.voice_map := by
  simp [stepReport, logMsg]

/-- C1 (amended): for a job with no stage-output artifact present before the
first call, and providers that succeed and return non-empty outputs (a
non-empty transcript, translated segments, voice map, at least one
synthesizable segment, and non-empty artifact paths), two consecutive
`run(job_id, start_from=1)` calls invoke the stage 1-5 bodies exactly once
in total — all in the first call, the second call skipping every one of
them — while the stage-6 body is invoked in both calls. -/
theorem idempotent_skip (env : Env) (job0 : JobState)
    (h1 : job0.cleaned_file = none) (h2 : job0.vocals_file = none)
    (h3 : job0.transcript = none) (h4 : job0.translated = none)
    (h5 : job0.edited = none) (h6 : job0.voice_map = none)
    (hok : ∀ n, env.stageResult n = none)
    (hcp : env.cleanedPath ≠ "") (hvp : env.vocalsPath ≠ "")
    (htr : env.transcriptOut ≠ []) (htl : env.translatedOut ≠ [])
    (hvm : env.voiceMapOut ≠ [])
    (hfiles : stage6Files env.voiceMapOut env.translatedOut ≠ []) :
    (run_pipeline env job0 1).invoked = [1, 2, 3, 4, 5, 6] ∧
    (run_pipeline env (run_pipeline env job0 1).job 1).invoked = [6] := by
  obtain ⟨rs1, e1, i1, c1, v1, t1, l1, d1, m1⟩ :=
    step1_run env (initRun 1 job0) h1 (hok 1)
  obtain ⟨rs2, e2, i2, c2, v2, t2, l2, d2, m2⟩ :=
    step2_run env rs1 (v1.trans h2) (hok 2)
  obtain ⟨rs3, e3, i3, c3, v3, t3, l3, d3, m3⟩ :=
    step3_run env rs2 (t2.trans (t1.trans h3)) (hok 3)
  obtain ⟨rs4, e4, i4, c4, v4, t4, l4, d4, m4⟩ :=
    step4_run env rs3 (l3.trans (l2.trans (l1.trans h4))) (hok 4)
  obtain ⟨rs5, e5, i5, c5, v5, t5, l5, d5, m5⟩ :=
    stepSeam_none rs4 (d4.trans (d3.trans (d2.trans (d1.trans h5))))
  obtain ⟨rs6, e6, i6, c6, v6, t6, l6, d6, m6⟩ :=
    step5_run env rs5 (m5.trans (m4.trans (m3.trans (m2.trans (m1.trans h6))))) (hok 5)
  have hEd6 : rs6.job.edited = some env.translatedOut :=
    d6.trans (d5.trans l4)
  have hsegs6 : (rs6.job.edited <|> rs6.job.translated) = some env.translatedOut := by
    rw [hEd6]
    rfl
  obtain ⟨rs7, e7, i7, c7, v7, t7, l7, d7, m7⟩ :=
    step6_ok env rs6 env.translatedOut env.voiceMapOut hsegs6 m6 hfiles (hok 6)
  obtain ⟨rs8, e8, i8, c8, v8, t8, l8, d8, m8⟩ := stepReport_ok rs7
  have hbody : runBody env 1 (initRun 1 job0) = .ok rs8 := by
    simp only [runBody, e1, StepResult.andThen, e2, e3, e4, e5, e6, e7, e8]
  have hr1 : run_pipeline env job0 1 = rs8 := by
    simp only [run_pipeline, hbody]
  have hi0 : (initRun 1 job0).invoked = [] := rfl
  have hinv1 : rs8.invoked = [1, 2, 3, 4, 5, 6] := by
    simp [i8, i7, i6, i5, i4, i3, i2, i1, hi0]
  refine ⟨by rw [hr1]; exact hinv1, ?_⟩
  -- second run, on rs8.job
  have g1 : rs8.job.cleaned_file = some env.cleanedPath :=
    c8.trans (c7.trans (c6.trans (c5.trans (c4.trans (c3.trans (c2.trans c1))))))
  have g2 : rs8.job.vocals_file = some env.vocalsPath :=
    v8.trans (v7.trans (v6.trans (v5.trans (v4.trans (v3.trans v2)))))
  have g3 : rs8.job.transcript = some env.transcriptOut :=
    t8.trans (t7.trans (t6.trans (t5.trans (t4.trans t3))))
  have g4 : rs8.job.translated = some env.translatedOut :=
    l8.trans (l7.trans (l6.trans (l5.trans l4)))
  have g5 : rs8.job.edited = some env.translatedOut :=
    d8.trans (d7.trans hEd6)
  have g6 : rs8.job.voice_map = some env.voiceMapOut :=
    m8.trans (m7.trans m6)
  rw [hr1]
  obtain ⟨qs1, f1, j1, p1, q1, r1, s1, u1, w1⟩ :=
    step1_skip env (initRun 1 rs8.job) env.cleanedPath g1 hcp
  obtain ⟨qs2, f2, j2, p2, q2, r2, s2, u2, w2⟩ :=
    step2_skip env qs1 env.vocalsPath (q1.trans g2) hvp
  obtain ⟨qs3, f3, j3, p3, q3, r3, s3, u3, w3⟩ :=
    step3_skip env qs2 env.transcriptOut (r2.trans (r1.trans g3)) htr
  obtain ⟨qs4, f4, j4, p4, q4, r4, s4, u4, w4⟩ :=
    step4_skip env qs3 env.translatedOut (s3.trans (s2.trans (s1.trans g4))) htl
  obtain ⟨qs5, f5, j5, p5, q5, r5, s5, u5, w5⟩ :=
    stepSeam_some qs4 env.translatedOut (u4.trans (u3.trans (u2.trans (u1.trans g5))))
  obtain ⟨qs6, f6, j6, p6, q6, r6, s6, u6, w6⟩ :=
    step5_skip env qs5 env.voiceMapOut
      (w5.trans (w4.trans (w3.trans (w2.trans (w1.trans g6))))) hvm
  have hEdq : qs6.job.edited = some env.translatedOut :=
    u6.trans (u5.trans (u4.trans (u3.trans (u2.trans (u1.trans g5)))))
  have hsegsq : (qs6.job.edited <|> qs6.job.translated) = some env.translatedOut := by
    rw [hEdq]
    rfl
  have hvmq : qs6.job.voice_map = some env.voiceMapOut :=
    w6.trans (w5.trans (w4.trans (w3.trans (w2.trans (w1.trans g6)))))
  obtain ⟨qs7, f7, j7, p7, q7, r7, s7, u7, w7⟩ :=
    step6_ok env qs6 env.translatedOut env.voiceMapOut hsegsq hvmq hfiles (hok 6)
  obtain ⟨qs8, f8, j8, p8, q8, r8, s8, u8, w8⟩ := stepReport_ok qs7
  have hbody2 : runBody env 1 (initRun 1 rs8.job) = .ok qs8 := by
    simp only [runBody, f1, StepResult.andThen, f2, f3, f4, f5, f6, f7, f8]
  have hr2 : run_pipeline env rs8.job 1 = qs8 := by
    simp only [run_pipeline, hbody2]
  have hj0 : (initRun 1 rs8.job).invoked = [] := rfl
  rw [hr2]
  simp [j8, j7, j6, j5, j4, j3, j2, j1, hj0]

/-- The C1 counterexample job: its cleaned-audio artifact already exists. -/
def jobPreCleaned : JobState := { cleaned_file := some "cleaned.mp3" }

/-- The C1 environment: all providers succeed with non-empty outputs. -/
def envIdem : Env := { bgExists := false
                       transcriptOut := [{}]
                       translatedOut := [{ translated_text := some "t" }]
                       voiceMapOut := [("Speaker", "v")]
                       ttsAudio := fun _ => [1] }

/-- Counterexample to C1 as stated ("for every job ... exactly once in
total"): for a job whose cleaned-audio artifact already exists, two
consecutive runs from stage 1 invoke the stage-1 body zero times. -/
theorem idempotent_skip_cx :
    ((run_pipeline envIdem jobPreCleaned 1).invoked ++
      (run_pipeline envIdem (run_pipeline envIdem jobPreCleaned 1).job 1).invoked).count 1
      = 0 := by decide

/-- Witness for C1 (amended) on a fresh job and a concrete provider
environment. -/
theorem idempotent_skip_witness :
    (run_pipeline envIdem {} 1).invoked = [1, 2, 3, 4, 5, 6] ∧
    (run_pipeline envIdem (run_pipeline envIdem {} 1).job 1).invoked = [6] :=
  idempotent_skip envIdem {} rfl rfl rfl rfl rfl rfl (fun _ => rfl)
    (by decide) (by decide) (by decide) (by decide) (by decide) (by decide)

/-! ## C3 — smart-mix duration law -/

/-- The intro section length computed by `smart_mix`: the first segment's
start time clamped to the background length. -/
def introLen (bg : AudioSeg) (tr : List Segment) : ℕ :=
  min (tr.head?.getD default).start_ms bg.length

/-- The last-speech boundary clamped to the background length. -/
def lastClamped (bg : AudioSeg) (tr : List Segment) : ℕ :=
  min (tr.getLast?.getD default).end_ms bg.length

/-- The middle section length computed by `smart_mix`. -/
def middleLen (bg : AudioSeg) (tr : List Segment) : ℕ :=
  lastClamped bg tr - introLen bg tr

/-- The outro section length computed by `smart_mix`. -/
def outroLen (bg : AudioSeg) (tr : List Segment) : ℕ :=
  bg.length - lastClamped bg tr

/-- Length of the intro+middle concatenation: `I + S`, reduced by the
crossfade overlap when both sections exceed the crossfade length. -/
def introPlusSpeech (bg : AudioSeg) (tr : List Segment) (S c : ℕ) : ℕ :=
  if c < introLen bg tr ∧ c < S then introLen bg tr + S - c
  else introLen bg tr + S


theorem length_middleQuiet (g : ℚ) (q : AudioSeg) :
    (middleQuiet g q).length = q.length := by
  unfold middleQuiet
  split <;> simp [length_gainBy]
  omega

theorem length_middleReconciled (S M : ℕ) (q : AudioSeg) (hq : q.length = M)
    (hS : 0 < S) (hM : 0 < M) : (middleReconciled S M q).length = S := by
  unfold middleReconciled
  rw [if_pos ⟨hS, hM⟩]
  rcases lt_trichotomy M S with h | h | h
  · rw [if_pos h]
    have h1 := Nat.div_add_mod S M
    have h2 : S % M < M := Nat.mod_lt _ hM
    have h3 : (S / M + 1) * M = M * (S / M) + M := by ring
    simp [List.length_take, length_repeatSeg, hq]
    omega
  · rw [if_neg (by omega), if_neg (by omega)]
    omega
  · rw [if_neg (by omega), if_pos h]
    simp [List.length_take]
    omega

theorem length_mixedMiddle (tts q : AudioSeg) (hq : q.length = tts.length) :
    (mixedMiddle tts q).length = tts.length := by
  unfold mixedMiddle
  split
  · simp [hq, length_overlay]
  · rfl

theorem length_introConcat (a mm : AudioSeg) (c : ℕ) (hmm : 0 < mm.length) :
    (introConcat a mm c).length =
      if c < a.length ∧ c < mm.length then a.length + mm.length - c
      else a.length + mm.length := by
  unfold introConcat
  rcases Nat.eq_zero_or_pos a.length with h0 | h0
  · rw [if_neg (by omega)]
    rw [if_neg (by omega)]
    omega
  · rw [if_pos h0, if_pos hmm]
    split
    · exact length_appendCrossfade _ _ _ (by omega) (by omega)
    · simp

theorem length_outroConcat (f o : AudioSeg) (c : ℕ) :
    (outroConcat f o c).length =
      if 0 < o.length then
        (if c < f.length ∧ c < o.length then f.length + o.length - c
         else f.length + o.length)
      else f.length := by
  unfold outroConcat
  split
  · split
    · exact length_appendCrossfade _ _ _ (by omega) (by omega)
    · simp
  · rfl

/-- C3 (amended): with a non-empty transcript, synthesized speech of length
S > 0 and a non-zero middle section, the reconciled middle has length exactly
S (background looped-and-truncated when S exceeds the original middle,
truncated when shorter) and the final track length is I + S + O reduced by
the crossfade overlap (`crossfade_ms`) at each boundary where both adjacent
sections exceed the crossfade length; intro and outro section lengths are
unchanged. -/
theorem smart_mix_duration_law (tts bg : AudioSeg) (tr : List Segment)
    (g : ℚ) (c : ℕ)
    (htr : tr.isEmpty = false) (hS : 0 < tts.length)
    (hM : 0 < middleLen bg tr) :
    (middleReconciled tts.length (middleLen bg tr)
        (middleQuiet g ((bg.drop (introLen bg tr)).take (middleLen bg tr)))).length
      = tts.length ∧
    (smart_mix tts bg tr g c).length =
      (if 0 < outroLen bg tr then
        (if c < introPlusSpeech bg tr tts.length c ∧ c < outroLen bg tr
         then introPlusSpeech bg tr tts.length c + outroLen bg tr - c
         else introPlusSpeech bg tr tts.length c + outroLen bg tr)
       else introPlusSpeech bg tr tts.length c) := by
  simp only [middleLen, introLen, lastClamped, outroLen, introPlusSpeech] at *
  have hlast_le : min (tr.getLast?.getD default).end_ms bg.length ≤ bg.length :=
    min_le_right _ _
  have hfirst_le : min (tr.head?.getD default).start_ms bg.length ≤ bg.length :=
    min_le_right _ _
  have hB0 : ¬ (List.length bg = 0) := by omega
  have hMidLen : ((bg.drop (min (tr.head?.getD default).start_ms bg.length)).take
      (min (tr.getLast?.getD default).end_ms bg.length -
        min (tr.head?.getD default).start_ms bg.length)).length
      = min (tr.getLast?.getD default).end_ms bg.length -
        min (tr.head?.getD default).start_ms bg.length := by
    simp only [List.length_take, List.length_drop]
    omega
  have hQuiet := (length_middleQuiet g
    ((bg.drop (min (tr.head?.getD default).start_ms bg.length)).take
      (min (tr.getLast?.getD default).end_ms bg.length -
        min (tr.head?.getD default).start_ms bg.length))).trans hMidLen
  have hRec := length_middleReconciled tts.length
    (min (tr.getLast?.getD default).end_ms bg.length -
      min (tr.head?.getD default).start_ms bg.length) _ hQuiet hS hM
  refine ⟨hRec, ?_⟩
  simp only [smart_mix, ensureStereo, setFrameRate, htr, Bool.false_eq_true,
    if_false]
  rw [if_neg hB0]
  have hM2 : 0 < ((bg.drop (min (tr.head?.getD default).start_ms bg.length)).take
      (min (tr.getLast?.getD default).end_ms bg.length -
        min (tr.head?.getD default).start_ms bg.length)).length := by
    rw [hMidLen]
    exact hM
  have hRec2 := length_middleReconciled tts.length
    ((bg.drop (min (tr.head?.getD default).start_ms bg.length)).take
      (min (tr.getLast?.getD default).end_ms bg.length -
        min (tr.head?.getD default).start_ms bg.length)).length
    _ (length_middleQuiet g _) hS hM2
  have hMix := length_mixedMiddle tts _ hRec2
  have hIntroLen : ((bg.take (min (tr.head?.getD default).start_ms bg.length))).length
      = min (tr.head?.getD default).start_ms bg.length := by
    simp only [List.length_take]
    omega
  have hOutroLen : ((bg.drop (min (tr.getLast?.getD default).end_ms bg.length))).length
      = bg.length - min (tr.getLast?.getD default).end_ms bg.length := by
    simp only [List.length_drop]
  rw [length_outroConcat, length_introConcat _ _ _ (by rw [hMix]; exact hS),
    hMix, hIntroLen, hOutroLen]

set_option maxRecDepth 400000 in
/-- Counterexample to C3 as stated ("length exactly I + S + O"): with
I = S = O = 501 ms (all above the 500 ms crossfade), the mix is 503 ms, not
1503 ms — each crossfade overlaps the sections by 500 ms. -/
theorem smart_mix_duration_cx :
    introLen (List.replicate 1102 (0 : ℚ)) [{ start_ms := 501, end_ms := 601 }] = 501 ∧
    outroLen (List.replicate 1102 (0 : ℚ)) [{ start_ms := 501, end_ms := 601 }] = 501 ∧
    (List.replicate 501 (0 : ℚ)).length = 501 ∧
    (smart_mix (List.replicate 501 0) (List.replicate 1102 0)
      [{ start_ms := 501, end_ms := 601 }] 1 500).length = 503 ∧
    (503 : ℕ) ≠ 501 + 501 + 501 := by decide

/-- Witness for C3 (amended) on a 5 ms background with a 1 ms middle. -/
theorem smart_mix_duration_law_witness :
    (smart_mix [0] [0, 0, 0, 0, 0] [{ start_ms := 2, end_ms := 3 }] 1 500).length = 5 := by
  have h := (smart_mix_duration_law [0] [0, 0, 0, 0, 0]
    [{ start_ms := 2, end_ms := 3 }] 1 500 rfl (by decide) (by decide)).2
  rw [h]
  decide

/-! ## C9 — report untranslated accounting -/

/-- Filtering the enumerated list keeps as many entries as filtering the
list itself. -/
theorem length_filter_enum (p : Segment → Bool) (l : List Segment) :
    (l.enum.filter (fun x => p x.2)).length = (l.filter p).length := by
  suffices h : ∀ n, ((l.enumFrom n).filter (fun x => p x.2)).length
      = (l.filter p).length by
    simpa [List.enum] using h 0
  induction l with
  | nil => intro n; rfl
  | cons a t ih =>
      intro n
      simp only [List.enumFrom, List.filter_cons]
      cases p a <;> simp [ih (n + 1)]

/-- C9 (amended): the report counts a segment as untranslated exactly when
its whitespace-stripped source text equals its whitespace-stripped translated
text and the stripped source is non-empty; the reported rate is
`round((total - untranslated) / total * 100, 1)`.  A 2-segment job whose
segments both have (stripped-)identical source and translated text yields 2
untranslated segments and a 0% rate; making exactly one segment's stripped
translated text differ yields 50%. -/
theorem report_untranslated_spec :
    (∀ s : Segment, isUntranslated s = true ↔
      (pyStrip s.text = pyStrip (s.translated_text.getD "") ∧ pyStrip s.text ≠ "")) ∧
    (∀ (l : List Segment) (job : JobState),
      (job.edited <|> job.translated) = some l →
      (generate_report job).total_segments = l.length ∧
      (generate_report job).untranslated.length = (l.filter (fun s => isUntranslated s)).length ∧
      (generate_report job).translated_count =
        l.length - (l.filter (fun s => isUntranslated s)).length ∧
      (generate_report job).translation_pct =
        translationPct l.length (l.filter (fun s => isUntranslated s)).length) ∧
    (∀ s₁ s₂ : Segment, isUntranslated s₁ = true → isUntranslated s₂ = true →
      ∀ job : JobState, (job.edited <|> job.translated) = some [s₁, s₂] →
      (generate_report job).untranslated.length = 2 ∧
      (generate_report job).translation_pct = 0) ∧
    (∀ s₁ s₂ : Segment, isUntranslated s₁ = true → isUntranslated s₂ = false →
      ∀ job : JobState, (job.edited <|> job.translated) = some [s₁, s₂] →
      (generate_report job).translation_pct = 50) := by
  have hrep : ∀ (l : List Segment) (job : JobState),
      (job.edited <|> job.translated) = some l →
      (generate_report job).total_segments = l.length ∧
      (generate_report job).untranslated.length = (l.filter (fun s => isUntranslated s)).length ∧
      (generate_report job).translated_count =
        l.length - (l.filter (fun s => isUntranslated s)).length ∧
      (generate_report job).translation_pct =
        translationPct l.length (l.filter (fun s => isUntranslated s)).length := by
    intro l job h
    simp [generate_report, untranslatedOf, h, length_filter_enum]
  refine ⟨?_, hrep, ?_, ?_⟩
  · intro s
    simp [isUntranslated]
  · intro s₁ s₂ h1 h2 job hj
    obtain ⟨ht, hu, hc, hp⟩ := hrep [s₁, s₂] job hj
    refine ⟨?_, ?_⟩
    · rw [hu]; simp [h1, h2]
    · rw [hp]
      simp [h1, h2, translationPct, roundTo1, roundHalfEven]
  · intro s₁ s₂ h1 h2 job hj
    obtain ⟨ht, hu, hc, hp⟩ := hrep [s₁, s₂] job hj
    rw [hp]
    simp [h1, h2, translationPct, roundTo1, roundHalfEven]
    norm_num

/-- Counterexample to C9 as stated ("source text equals its translated
text"): the code compares whitespace-stripped texts, so a segment whose raw
source text "hi " differs from its translated text "hi" is still counted
untranslated. -/
theorem report_untranslated_cx :
    (({ text := "hi ", translated_text := some "hi" } : Segment).text ≠
      ({ text := "hi ", translated_text := some "hi" } : Segment).translated_text.getD "") ∧
    isUntranslated { text := "hi ", translated_text := some "hi" } = true ∧
    (untranslatedOf [{ text := "hi ", translated_text := some "hi" }]).length = 1 := by
  decide

/-- A segment whose source and translated text agree. -/
def segSame : Segment := { text := "a", translated_text := some "a" }

/-- A segment whose translated text differs from its source. -/
def segDiff : Segment := { text := "b", translated_text := some "c" }

/-- A 2-segment job with both segments untranslated. -/
def jobTwoSame : JobState := { translated := some [segSame, segSame] }

/-- A 2-segment job with one translated segment. -/
def jobOneDiff : JobState := { translated := some [segSame, segDiff] }

/-- Witness for C9 (amended) on the spec's 2-segment scenarios. -/
theorem report_untranslated_spec_witness :
    ((generate_report jobTwoSame).untranslated.length = 2 ∧
      (generate_report jobTwoSame).translation_pct = 0) ∧
    (generate_report jobOneDiff).translation_pct = 50 :=
  ⟨report_untranslated_spec.2.2.1 segSame segSame (by decide) (by decide)
      jobTwoSame rfl,
   report_untranslated_spec.2.2.2 segSame segDiff (by decide) (by decide)
      jobOneDiff rfl⟩

/-! ## C5 — cosine similarity -/

/-- A sum of squares is non-negative. -/
theorem sumSq_nonneg (a : List ℝ) : 0 ≤ sumSq a := by
  unfold sumSq
  apply List.sum_nonneg
  intro x hx
  obtain ⟨y, _, rfl⟩ := List.mem_map.mp hx
  positivity

/-- The Euclidean norm is non-negative. -/
theorem norm2_nonneg (a : List ℝ) : 0 ≤ norm2 a := Real.sqrt_nonneg _

/-- Squaring undoes the square root on a sum of squares. -/
theorem norm2_sq (a : List ℝ) : (norm2 a) ^ 2 = sumSq a :=
  Real.sq_sqrt (sumSq_nonneg a)

/-- The dot product as a `Finset.range` sum (equal dimensions). -/
theorem dotList_eq_range (a b : List ℝ) (h : a.length = b.length) :
    dotList a b = ∑ i ∈ Finset.range a.length, a.getD i 0 * b.getD i 0 := by
  induction a generalizing b with
  | nil => simp [dotList]
  | cons x xs ih =>
      cases b with
      | nil => simp at h
      | cons y ys =>
          simp only [List.length_cons] at h
          have h2 : xs.length = ys.length := by omega
          simp only [dotList, List.zipWith_cons_cons, List.sum_cons,
            List.length_cons, Finset.sum_range_succ']
          rw [← dotList, ih ys h2]
          simp only [List.getD_cons_zero, List.getD_cons_succ]
          ring

/-- The sum of squares as a `Finset.range` sum. -/
theorem sumSq_eq_range (a : List ℝ) :
    sumSq a = ∑ i ∈ Finset.range a.length, (a.getD i 0) ^ 2 := by
  induction a with
  | nil => simp [sumSq]
  | cons x xs ih =>
      simp only [sumSq, List.map_cons, List.sum_cons, List.length_cons,
        Finset.sum_range_succ']
      rw [← sumSq, ih]
      simp only [List.getD_cons_zero, List.getD_cons_succ]
      ring

/-- Cauchy-Schwarz for the list dot product. -/
theorem dotList_sq_le (a b : List ℝ) (h : a.length = b.length) :
    (dotList a b) ^ 2 ≤ sumSq a * sumSq b := by
  rw [dotList_eq_range a b h, sumSq_eq_range a, sumSq_eq_range b, ← h]
  exact Finset.sum_mul_sq_le_sq_mul_sq _ _ _

/-- The dot product is bounded by the product of norms. -/
theorem abs_dotList_le (a b : List ℝ) (h : a.length = b.length) :
    |dotList a b| ≤ norm2 a * norm2 b := by
  have h1 : (dotList a b) ^ 2 ≤ (norm2 a * norm2 b) ^ 2 := by
    rw [mul_pow, norm2_sq, norm2_sq]
    exact dotList_sq_le a b h
  calc |dotList a b| = Real.sqrt ((dotList a b) ^ 2) :=
        (Real.sqrt_sq_eq_abs _).symm
    _ ≤ Real.sqrt ((norm2 a * norm2 b) ^ 2) := Real.sqrt_le_sqrt h1
    _ = norm2 a * norm2 b :=
        Real.sqrt_sq (mul_nonneg (norm2_nonneg a) (norm2_nonneg b))

/-- Dotting a vector with itself gives its sum of squares. -/
theorem dotList_self (a : List ℝ) : dotList a a = sumSq a := by
  induction a with
  | nil => rfl
  | cons x xs ih =>
      unfold dotList sumSq at *
      simp only [List.zipWith_cons_cons, List.sum_cons, List.map_cons]
      rw [ih]
      ring

/-- C5: for equal-dimension vectors, `_cosine_similarity` equals
`dot(a,b) / (‖a‖ * ‖b‖)` and lies in [-1, 1]; a non-zero vector has
self-similarity exactly 1 (the real-arithmetic model of "1.0 within floating
tolerance"); and the result is exactly 0 when either vector has zero norm. -/
theorem cosine_similarity_spec :
    (∀ a b : List ℝ, a.length = b.length →
      cosineSimilarity a b = dotList a b / (norm2 a * norm2 b) ∧
      -1 ≤ cosineSimilarity a b ∧ cosineSimilarity a b ≤ 1) ∧
    (∀ a : List ℝ, (∃ x ∈ a, x ≠ 0) → cosineSimilarity a a = 1) ∧
    (∀ a b : List ℝ, norm2 a = 0 ∨ norm2 b = 0 → cosineSimilarity a b = 0) := by
  refine ⟨?_, ?_, ?_⟩
  · intro a b h
    by_cases hz : norm2 a * norm2 b = 0
    · refine ⟨?_, ?_, ?_⟩ <;> simp [cosineSimilarity, hz]
    · have hpos : 0 < norm2 a * norm2 b :=
        lt_of_le_of_ne (mul_nonneg (norm2_nonneg a) (norm2_nonneg b)) (Ne.symm hz)
      have habs : |dotList a b / (norm2 a * norm2 b)| ≤ 1 := by
        rw [abs_div, abs_of_pos hpos]
        exact div_le_one_of_le₀ (abs_dotList_le a b h) (le_of_lt hpos)
      have hb := abs_le.mp habs
      refine ⟨by simp [cosineSimilarity, hz], ?_, ?_⟩
      · simpa [cosineSimilarity, hz] using hb.1
      · simpa [cosineSimilarity, hz] using hb.2
  · intro a hx
    obtain ⟨x, hmem, hne⟩ := hx
    have hsq : 0 < x ^ 2 :=
      lt_of_le_of_ne (sq_nonneg x) (Ne.symm (pow_ne_zero 2 hne))
    have hle : x ^ 2 ≤ sumSq a :=
      List.single_le_sum (fun y hy => by
        obtain ⟨z, _, rfl⟩ := List.mem_map.mp hy; positivity) _
        (List.mem_map_of_mem (· ^ 2) hmem)
    have hs : 0 < sumSq a := lt_of_lt_of_le hsq hle
    have hnorm : norm2 a * norm2 a = sumSq a := Real.mul_self_sqrt (le_of_lt hs)
    have hz : norm2 a * norm2 a ≠ 0 := by rw [hnorm]; exact ne_of_gt hs
    rw [show cosineSimilarity a a =
        (if norm2 a * norm2 a = 0 then 0 else dotList a a / (norm2 a * norm2 a))
      from rfl, if_neg hz, dotList_self, hnorm]
    exact div_self (ne_of_gt hs)
  · intro a b h
    have hz : norm2 a * norm2 b = 0 := by
      rcases h with h | h <;> simp [h]
    simp [cosineSimilarity, hz]

/-- Witness for C5 at concrete one- and two-entry vectors. -/
theorem cosine_similarity_spec_witness :
    cosineSimilarity [(1 : ℝ)] [1] = 1 ∧ cosineSimilarity [(1 : ℝ)] [0] = 0 ∧
    -1 ≤ cosineSimilarity [(1 : ℝ)] [1] ∧ cosineSimilarity [(1 : ℝ)] [1] ≤ 1 :=
  ⟨cosine_similarity_spec.2.1 [1] ⟨1, by simp, one_ne_zero⟩,
   cosine_similarity_spec.2.2 [1] [0] (Or.inr (by simp [norm2, sumSq])),
   (cosine_similarity_spec.1 [1] [1] rfl).2.1,
   (cosine_similarity_spec.1 [1] [1] rfl).2.2⟩

/-! ## C6 — fingerprint cache matching -/

/-- Characterization of the `(best_match, best_score)` loop: either no
profile in the remaining list beats the accumulator, or the result is the
first profile attaining the strictly-best acceptable score. -/
theorem bestMatchAux_spec (emb : List ℝ) (θ : ℝ) (l : List SpeakerProfile) :
    ∀ (i : ℕ) (acc : Option ℕ × ℝ),
      (bestMatchAux emb θ l i acc = acc ∧
        ∀ p ∈ l, ¬(θ ≤ cosineSimilarity emb p.embedding ∧
          acc.2 < cosineSimilarity emb p.embedding)) ∨
      (∃ k p, l[k]? = some p ∧
        bestMatchAux emb θ l i acc =
          (some (i + k), cosineSimilarity emb p.embedding) ∧
        θ ≤ cosineSimilarity emb p.embedding ∧
        acc.2 < cosineSimilarity emb p.embedding ∧
        (∀ j q, l[j]? = some q → j < k →
          ¬(θ ≤ cosineSimilarity emb q.embedding ∧
            cosineSimilarity emb p.embedding ≤ cosineSimilarity emb q.embedding)) ∧
        (∀ j q, l[j]? = some q → k < j →
          ¬(θ ≤ cosineSimilarity emb q.embedding ∧
            cosineSimilarity emb p.embedding < cosineSimilarity emb q.embedding))) := by
  induction l with
  | nil =>
      intro i acc
      left
      exact ⟨rfl, by simp⟩
  | cons p rest ih =>
      intro i acc
      by_cases hc : θ ≤ cosineSimilarity emb p.embedding ∧
          acc.2 < cosineSimilarity emb p.embedding
      · have hstep : bestMatchAux emb θ (p :: rest) i acc =
            bestMatchAux emb θ rest (i + 1) (some i, cosineSimilarity emb p.embedding) := by
          simp only [bestMatchAux, if_pos hc]
        rcases ih (i + 1) (some i, cosineSimilarity emb p.embedding) with ⟨hA, hA2⟩ | hB
        · right
          refine ⟨0, p, by simp, ?_, hc.1, hc.2, ?_, ?_⟩
          · rw [hstep, hA]
            simp
          · intro j q hj hjk
            omega
          · intro j q hj hjk
            rcases j with _ | j'
            · omega
            · simp only [List.getElem?_cons_succ] at hj
              exact fun hq => hA2 q (List.getElem?_mem hj) ⟨hq.1, hq.2⟩
        · obtain ⟨k', p', hk', hres, hθ', hacc', hearly, hlate⟩ := hB
          right
          refine ⟨k' + 1, p', by simpa using hk', ?_, hθ', lt_trans hc.2 hacc', ?_, ?_⟩
          · rw [hstep, hres]
            congr 2
            omega
          · intro j q hj hjk
            rcases j with _ | j'
            · simp only [List.getElem?_cons_zero, Option.some_inj] at hj
              subst hj
              intro hq
              exact absurd hq.2 (not_le.mpr hacc')
            · simp only [List.getElem?_cons_succ] at hj
              exact hearly j' q hj (by omega)
          · intro j q hj hjk
            rcases j with _ | j'
            · omega
            · simp only [List.getElem?_cons_succ] at hj
              exact hlate j' q hj (by omega)
      · have hstep : bestMatchAux emb θ (p :: rest) i acc =
            bestMatchAux emb θ rest (i + 1) acc := by
          simp only [bestMatchAux, if_neg hc]
        rcases ih (i + 1) acc with ⟨hA, hA2⟩ | hB
        · left
          refine ⟨hstep.trans hA, ?_⟩
          intro q hq
          rcases List.mem_cons.mp hq with rfl | hq'
          · exact hc
          · exact hA2 q hq'
        · obtain ⟨k', p', hk', hres, hθ', hacc', hearly, hlate⟩ := hB
          right
          refine ⟨k' + 1, p', by simpa using hk', ?_, hθ', hacc', ?_, ?_⟩
          · rw [hstep, hres]
            congr 2
            omega
          · intro j q hj hjk
            rcases j with _ | j'
            · simp only [List.getElem?_cons_zero, Option.some_inj] at hj
              subst hj
              intro hq
              have hle : cosineSimilarity emb p.embedding ≤ acc.2 :=
                not_lt.mp (fun hlt => hc ⟨hq.1, hlt⟩)
              have h2 : cosineSimilarity emb p.embedding <
                  cosineSimilarity emb p'.embedding := lt_of_le_of_lt hle hacc'
              linarith [hq.2]
            · simp only [List.getElem?_cons_succ] at hj
              exact hearly j' q hj (by omega)
          · intro j q hj hjk
            rcases j with _ | j'
            · omega
            · simp only [List.getElem?_cons_succ] at hj
              exact hlate j' q hj (by omega)

/-- C6: with the default threshold 0.85, `find_matching_profile` returns
`none` and leaves the store untouched exactly when no stored profile reaches
the threshold; otherwise it returns the stored profile with the highest
similarity at or above 0.85 (the first-iterated profile on an exact tie,
i.e. every earlier profile at or above the threshold scores strictly lower),
with `last_used_at` updated to the current time, and only that row is
rewritten in the store. -/
theorem find_matching_profile_spec (now : ℕ) (profiles : List SpeakerProfile)
    (emb : List ℝ) :
    ((∀ p ∈ profiles, cosineSimilarity emb p.embedding < 85 / 100) →
      find_matching_profile now profiles emb (85 / 100) = (none, profiles)) ∧
    ((find_matching_profile now profiles emb (85 / 100)).1 = none →
      (∀ p ∈ profiles, cosineSimilarity emb p.embedding < 85 / 100) ∧
      (find_matching_profile now profiles emb (85 / 100)).2 = profiles) ∧
    (∀ q, (find_matching_profile now profiles emb (85 / 100)).1 = some q →
      ∃ (k : ℕ) (p : SpeakerProfile), profiles[k]? = some p ∧
        q = { p with last_used_at := now } ∧
        q.last_used_at = now ∧
        85 / 100 ≤ cosineSimilarity emb p.embedding ∧
        (∀ (j : ℕ) (pj : SpeakerProfile), profiles[j]? = some pj →
          85 / 100 ≤ cosineSimilarity emb pj.embedding →
          cosineSimilarity emb pj.embedding ≤ cosineSimilarity emb p.embedding) ∧
        (∀ (j : ℕ) (pj : SpeakerProfile), profiles[j]? = some pj → j < k →
          85 / 100 ≤ cosineSimilarity emb pj.embedding →
          cosineSimilarity emb pj.embedding < cosineSimilarity emb p.embedding) ∧
        (find_matching_profile now profiles emb (85 / 100)).2 =
          profiles.set k q) := by
  rcases bestMatchAux_spec emb (85 / 100) profiles 0 (none, 0) with ⟨hA, hA2⟩ | hB
  · have hfind : find_matching_profile now profiles emb (85 / 100) = (none, profiles) := by
      unfold find_matching_profile
      rw [hA]
    refine ⟨fun _ => hfind, fun _ => ⟨?_, by rw [hfind]⟩, ?_⟩
    · intro p hp
      have h2 := hA2 p hp
      by_contra hge
      push_neg at hge
      exact h2 ⟨hge, by norm_num at hge ⊢; linarith⟩
    · intro q hq
      rw [hfind] at hq
      simp at hq
  · obtain ⟨k, p, hk, hres, hθ, hacc, hearly, hlate⟩ := hB
    have hfind : find_matching_profile now profiles emb (85 / 100) =
        (some { p with last_used_at := now },
          profiles.set k { p with last_used_at := now }) := by
      unfold find_matching_profile
      rw [hres]
      simp [hk]
    refine ⟨?_, ?_, ?_⟩
    · intro hall
      exact absurd hθ (not_le.mpr (hall p (List.getElem?_mem hk)))
    · intro hnone
      rw [hfind] at hnone
      simp at hnone
    · intro q hq
      rw [hfind] at hq
      simp only [Option.some.injEq] at hq
      subst hq
      refine ⟨k, p, hk, rfl, rfl, hθ, ?_, ?_, by rw [hfind]⟩
      · intro j pj hj hθj
        rcases lt_trichotomy j k with hlt | heq | hgt
        · have h2 := hearly j pj hj hlt
          by_contra hgt2
          push_neg at hgt2
          exact h2 ⟨hθj, le_of_lt hgt2⟩
        · subst heq
          rw [hk] at hj
          simp only [Option.some.injEq] at hj
          subst hj
          exact le_refl _
        · have h2 := hlate j pj hj hgt
          by_contra hgt2
          push_neg at hgt2
          exact h2 ⟨hθj, hgt2⟩
      · intro j pj hj hjk hθj
        have h2 := hearly j pj hj hjk
        by_contra hge
        push_neg at hge
        exact h2 ⟨hθj, hge⟩

/-- A stored profile whose embedding is orthogonal to the query. -/
def profileZero : SpeakerProfile := { embedding := [0] }

/-- Witness for C6: a below-threshold store yields no match and an
unchanged store. -/
theorem find_matching_profile_spec_witness :
    find_matching_profile 7 [profileZero] [1] (85 / 100) = (none, [profileZero]) :=
  (find_matching_profile_spec 7 [profileZero] [1]).1 (by
    intro p hp
    simp only [List.mem_singleton] at hp
    subst hp
    simp [profileZero, cosineSimilarity, norm2, sumSq, dotList])

end Aipod
